import Mathlib

/-!
Verification of PyBB (src/PyBB.py), an interface to NodeBB forums.

The development shallowly embeds the module: JSON-derived Python values
become the inductive type PyVal, the coercion function process_data is
translated branch by branch, Forum / User construction and attribute
resolution become functions over explicit documents, and the network is
an explicit oracle (the spec treats HTTP and JSON decoding as external
collaborators).  Python library routines that the module calls
(str/int, str.isdigit, datetime.fromtimestamp, datetime.strptime with
the fixed format string, urllib.parse.urljoin, requests header lookup)
are modelled by executable Lean functions documented at their
definitions.
-/

/-- First code points of the Unicode decimal-digit blocks (category Nd).
Each Nd block is ten consecutive code points carrying the values 0 to 9
in order (a Unicode stability guarantee), so membership and value
computations reduce to these starts.  The list covers the Nd blocks of
Unicode 15 (ASCII, Arabic-Indic, the Brahmic scripts, Thai, Lao,
Tibetan, Myanmar and the other script blocks, fullwidth and the
mathematical styles). -/
def ndBlockStarts : List Nat :=
  [0x30, 0x660, 0x6F0, 0x7C0, 0x966, 0x9E6, 0xA66, 0xAE6, 0xB66, 0xBE6,
   0xC66, 0xCE6, 0xD66, 0xDE6, 0xE50, 0xED0, 0xF20, 0x1040, 0x1090, 0x17E0,
   0x1810, 0x1946, 0x19D0, 0x1A80, 0x1A90, 0x1B50, 0x1BB0, 0x1C40, 0x1C50,
   0xA620, 0xA8D0, 0xA900, 0xA9D0, 0xA9F0, 0xAA50, 0xABF0, 0xFF10,
   0x104A0, 0x10D30, 0x11066, 0x110F0, 0x11136, 0x111D0, 0x112F0, 0x11450,
   0x114D0, 0x11650, 0x116C0, 0x11730, 0x118E0, 0x11950, 0x11C50, 0x11D50,
   0x11DA0, 0x16A60, 0x16B50, 0x1D7CE, 0x1D7D8, 0x1D7E2, 0x1D7EC, 0x1D7F6,
   0x1E140, 0x1E2F0, 0x1E950, 0x1FBF0]

/-- The start of the Nd block containing c, when c is a decimal digit. -/
def decDigitStart (c : Char) : Option Nat :=
  ndBlockStarts.find? (fun s => decide (s ≤ c.toNat) && decide (c.toNat < s + 10))

/-- Unicode decimal digit (category Nd): the digit characters accepted
by Python int() and matched by the backslash-d of the strptime regular
expressions. -/
def isDecDigit (c : Char) : Bool := (decDigitStart c).isSome

/-- Decimal value of an Nd digit (offset inside its block). -/
def decDigitVal (c : Char) : Nat :=
  match decDigitStart c with
  | some s => c.toNat - s
  | _ => 0

/-- Code points with the Unicode digit property that are not decimal
digits: str.isdigit accepts them but int() raises ValueError on them.
The list holds the superscript digits, the subscript digits and the
circled digits one to nine, the representatives of this class the
development evaluates on (further compatibility digits behave the
same way and are omitted). -/
def digitOnlyCodes : List Nat :=
  [0xB2, 0xB3, 0xB9, 0x2070, 0x2074, 0x2075, 0x2076, 0x2077, 0x2078, 0x2079,
   0x2080, 0x2081, 0x2082, 0x2083, 0x2084, 0x2085, 0x2086, 0x2087, 0x2088,
   0x2089, 0x2460, 0x2461, 0x2462, 0x2463, 0x2464, 0x2465, 0x2466, 0x2467,
   0x2468]

/-- Model of str.isdigit on one character: a decimal digit (Nd) or a
digit-property character such as a superscript. -/
def pyCharIsdigit (c : Char) : Bool :=
  isDecDigit c || digitOnlyCodes.contains c.toNat

/-- Decimal digit character for a value below 10, as produced by Python
number formatting: digitChar 3 is the character 3. -/
def digitChar (n : Nat) : Char := Char.ofNat (48 + n)

/-- Fueled most-significant-first decimal digit expansion; the fuel only
serves termination, any fuel above the argument gives the digits. -/
def decDigitsAux : Nat → Nat → List Char
  | 0, _ => []
  | fuel + 1, n =>
    if n < 10 then [digitChar n]
    else decDigitsAux fuel (n / 10) ++ [digitChar (n % 10)]

/-- Decimal digits of a natural number, most significant first, as in the
textual representation str(n) of a Python int. -/
def decDigits (n : Nat) : List Char := decDigitsAux (n + 1) n

/-- Model of str(n) for a Python int n (decimal representation, with a
leading minus sign when negative). -/
def intStr (n : Int) : String :=
  String.mk (if n < 0 then '-' :: decDigits (-n).toNat else decDigits n.toNat)

/-- Numeric value of a list of decimal digit characters, as computed by
Python int() on a string of Nd digits (any script, mixed allowed). -/
def natOfDigits (l : List Char) : Nat :=
  l.foldl (fun a c => 10 * a + decDigitVal c) 0

/-- Decimal rendering of n zero-padded on the left to width w, as in
Python %0wd formatting (used by str(datetime) and to describe exact
pattern strings). -/
def digitsPad (w n : Nat) : List Char :=
  List.replicate (w - (decDigits n).length) '0' ++ decDigits n

/-- A Python datetime.datetime value: the seven naive fields.  The module
never attaches a timezone, so naive field equality is Python equality. -/
structure PyDatetime where
  year : Nat
  month : Nat
  day : Nat
  hour : Nat
  minute : Nat
  second : Nat
  microsecond : Nat
deriving DecidableEq, Repr

/-- Gregorian civil date from a count of days since 1970-01-01
(the standard days-from-civil inverse used to model the C localtime
conversion underneath datetime.fromtimestamp). -/
def civilFromDays (z0 : Nat) : Nat × Nat × Nat :=
  let z := z0 + 719468
  let era := z / 146097
  let doe := z % 146097
  let yoe := (doe - doe / 1460 + doe / 36524 - doe / 146096) / 365
  let y := yoe + era * 400
  let doy := doe - (365 * yoe + yoe / 4 - yoe / 100)
  let mp := (5 * doy + 2) / 153
  let d := doy - (153 * mp + 2) / 5 + 1
  let m := if mp < 10 then mp + 3 else mp - 9
  (if m ≤ 2 then y + 1 else y, m, d)

/-- Model of datetime.datetime.fromtimestamp(n / 1000) for a nonnegative
count n of milliseconds since the Unix epoch: the datetime lying n
milliseconds after 1970-01-01 00:00:00.  fromtimestamp interprets the
stamp in local time; the model fixes the local timezone to UTC (the spec
treats the result as naive, and no claim depends on the offset).  The
float division n / 1000 is modelled exactly: microsecond = (n mod 1000)
thousandths. -/
def fromtimestampMs (n : Nat) : PyDatetime :=
  let s := n / 1000
  let days := s / 86400
  let sod := s % 86400
  let ymd := civilFromDays days
  { year := ymd.1, month := ymd.2.1, day := ymd.2.2,
    hour := sod / 3600, minute := sod % 3600 / 60, second := sod % 60,
    microsecond := n % 1000 * 1000 }

/-- Model of str(dt) for a Python datetime: the ISO-like rendering with a
space separator, the microseconds suffix printed only when nonzero. -/
def dtStr (d : PyDatetime) : String :=
  String.mk (digitsPad 4 d.year ++ '-' :: digitsPad 2 d.month ++
    '-' :: digitsPad 2 d.day ++ ' ' :: digitsPad 2 d.hour ++
    ':' :: digitsPad 2 d.minute ++ ':' :: digitsPad 2 d.second ++
    (if d.microsecond = 0 then [] else '.' :: digitsPad 6 d.microsecond))

/-- Model of repr(dt) for a Python datetime (trailing zero second and
microsecond fields are omitted by Python; the rendering always contains
a parenthesis, which is all any claim depends on). -/
def dtRepr (d : PyDatetime) : String :=
  "datetime.datetime(" ++ intStr d.year ++ ", " ++ intStr d.month ++
    ", " ++ intStr d.day ++ ", " ++ intStr d.hour ++ ", " ++ intStr d.minute ++
    (if d.second = 0 ∧ d.microsecond = 0 then ""
     else ", " ++ intStr d.second ++
       (if d.microsecond = 0 then "" else ", " ++ intStr d.microsecond)) ++ ")"

/-- A Python value as it appears in this module: a value decoded from a
JSON document (None, bool, int, str, list, dict) or a datetime produced
by process_data.  JSON numbers with a fractional part are not modelled;
their textual form contains a dot or an exponent letter, so the module
treats them exactly like the other fall-through cases. -/
inductive PyVal where
  | vnone : PyVal
  | vbool : Bool → PyVal
  | vint : Int → PyVal
  | vstr : String → PyVal
  | vlist : List PyVal → PyVal
  | vdict : List (String × PyVal) → PyVal
  | vdatetime : PyDatetime → PyVal

mutual

/-- Model of repr(v) for the values above.  String repr is simplified to
a plain single-quoted form (escaping inside quotes is not modelled; no
claim inspects the interior of a bracketed rendering). -/
def pyReprStr : PyVal → String
  | .vnone => "None"
  | .vbool true => "True"
  | .vbool false => "False"
  | .vint n => intStr n
  | .vstr s => "\x27" ++ s ++ "\x27"
  | .vlist xs => "[" ++ pyReprList xs ++ "]"
  | .vdict kvs => "\x7b" ++ pyReprKVs kvs ++ "\x7d"
  | .vdatetime d => dtRepr d

/-- Comma-joined reprs of the elements of a list. -/
def pyReprList : List PyVal → String
  | [] => ""
  | [x] => pyReprStr x
  | x :: xs => pyReprStr x ++ ", " ++ pyReprList xs

/-- Comma-joined key: value reprs of the entries of a dict. -/
def pyReprKVs : List (String × PyVal) → String
  | [] => ""
  | [kv] => "\x27" ++ kv.1 ++ "\x27: " ++ pyReprStr kv.2
  | kv :: kvs => "\x27" ++ kv.1 ++ "\x27: " ++ pyReprStr kv.2 ++ ", " ++ pyReprKVs kvs

end

/-- Model of str(v): strings render as themselves, datetimes by their
dedicated rendering, everything else by its repr (Python default). -/
def pyStr (v : PyVal) : String :=
  match v with
  | .vstr s => s
  | .vdatetime d => dtStr d
  | v => pyReprStr v

/-- Model of str.isdigit: nonempty and every character a Unicode digit
(a decimal Nd digit or a digit-property character such as a
superscript).  The two classes matter separately: int() accepts only
the decimal ones. -/
def pyIsdigit (s : String) : Bool :=
  !s.data.isEmpty && s.data.all pyCharIsdigit

/-- Model of int(data) for the values on which process_data calls it:
some value for ints, bools, and strings of decimal (Nd) digits; none
models the ValueError raised for any other string, in particular a
string that passes isdigit through non-decimal digit characters such
as superscripts.  The full int() string grammar (sign, whitespace,
underscores) is unreachable under the isdigit guard and is not
modelled, nor is the TypeError for container arguments (their str()
contains brackets and never reaches int()). -/
def pyInt : PyVal → Option Int
  | .vint n => some n
  | .vbool b => some (if b then 1 else 0)
  | .vstr s =>
    if !s.data.isEmpty && s.data.all isDecDigit then
      some ((natOfDigits s.data : Nat) : Int)
    else Option.none
  | _ => Option.none

/-- Longest prefix of decimal digit characters and the rest, the
maximal-munch step of the strptime regular expression; its backslash-d
matches exactly the Nd digits in Python 3 string patterns. -/
def takeDigits : List Char → List Char × List Char
  | [] => ([], [])
  | c :: cs =>
    if isDecDigit c then
      let r := takeDigits cs
      (c :: r.1, r.2)
    else ([], c :: cs)

/-- One numeric directive of the strptime regular expression: a nonempty
run of at most maxLen digits whose length and value satisfy the
directive's alternation, followed by the rest of the input.  Because
every directive in the format %Y-%m-%dT%H:%M:%S.%fZ is followed by a
non-digit literal, the regular expression's backtracking alternation is
equivalent to this maximal munch. -/
def parseField (maxLen : Nat) (valid : Nat → Nat → Bool) (cs : List Char) :
    Option (Nat × List Char) :=
  let p := takeDigits cs
  if p.1.length = 0 ∨ maxLen < p.1.length then Option.none
  else if valid p.1.length (natOfDigits p.1) then some (natOfDigits p.1, p.2)
  else Option.none

/-- One literal of the strptime regular expression.  The expression is
compiled with IGNORECASE, so the letters T and Z also match their
lowercase forms; the target is passed lowercased. -/
def parseLit (c : Char) : List Char → Option (List Char)
  | x :: r => if x.toLower = c then some r else Option.none
  | [] => Option.none

/-- The %f directive: one to six digits, right-padded with zeros to a
microsecond count, exactly as strptime pads found_dict with ljust. -/
def parseFrac (cs : List Char) : Option (Nat × List Char) :=
  let p := takeDigits cs
  if 1 ≤ p.1.length ∧ p.1.length ≤ 6 then
    some (natOfDigits p.1 * 10 ^ (6 - p.1.length), p.2)
  else Option.none

/-- Days of a month in the proleptic Gregorian calendar, as enforced by
the datetime.date constructor reached inside strptime. -/
def daysInMonth (y m : Nat) : Nat :=
  if m = 2 then
    if y % 4 = 0 ∧ (y % 100 ≠ 0 ∨ y % 400 = 0) then 29 else 28
  else if m = 4 ∨ m = 6 ∨ m = 9 ∨ m = 11 then 30
  else 31

/-- Model of datetime.datetime.strptime(s, the format
%Y-%m-%dT%H:%M:%S.%fZ), split into one stage per directive with
strptimeChars as entry point; each stage returns none where Python
raises ValueError (caught by the caller).  The numeric directives carry
the width/value alternations of the CPython TimeRE table; this final
stage holds the literal Z, the full-match requirement, and the
ValueErrors raised by the date and datetime constructors (year at least
1, a real calendar day, second below 60 even though the regular
expression admits leap seconds 60 and 61). -/
def strptimeZEnd (y mo d h mi s us : Nat) (cs : List Char) : Option PyDatetime :=
  match parseLit 'z' cs with
  | some cs2 =>
    match cs2 with
    | [] =>
      if 1 ≤ y ∧ d ≤ daysInMonth y mo ∧ s ≤ 59 then
        some ⟨y, mo, d, h, mi, s, us⟩
      else Option.none
    | _ => Option.none
  | _ => Option.none

/-- Stage for the literal dot and the %f directive. -/
def strptimeFrac (y mo d h mi s : Nat) (cs : List Char) : Option PyDatetime :=
  match parseLit '.' cs with
  | some cs2 =>
    match parseFrac cs2 with
    | some (us, cs3) => strptimeZEnd y mo d h mi s us cs3
    | _ => Option.none
  | _ => Option.none

/-- Stage for the second colon and the %S directive. -/
def strptimeSecond (y mo d h mi : Nat) (cs : List Char) : Option PyDatetime :=
  match parseLit ':' cs with
  | some cs2 =>
    match parseField 2 (fun l v => if l = 1 then true else decide (v ≤ 61)) cs2 with
    | some (s, cs3) => strptimeFrac y mo d h mi s cs3
    | _ => Option.none
  | _ => Option.none

/-- Stage for the first colon and the %M directive. -/
def strptimeMinute (y mo d h : Nat) (cs : List Char) : Option PyDatetime :=
  match parseLit ':' cs with
  | some cs2 =>
    match parseField 2 (fun l v => if l = 1 then true else decide (v ≤ 59)) cs2 with
    | some (mi, cs3) => strptimeSecond y mo d h mi cs3
    | _ => Option.none
  | _ => Option.none

/-- Stage for the literal T and the %H directive. -/
def strptimeHour (y mo d : Nat) (cs : List Char) : Option PyDatetime :=
  match parseLit 't' cs with
  | some cs2 =>
    match parseField 2 (fun l v => if l = 1 then true else decide (v ≤ 23)) cs2 with
    | some (h, cs3) => strptimeMinute y mo d h cs3
    | _ => Option.none
  | _ => Option.none

/-- Stage for the second dash and the %d directive. -/
def strptimeDay (y mo : Nat) (cs : List Char) : Option PyDatetime :=
  match parseLit '-' cs with
  | some cs2 =>
    match parseField 2
        (fun l v => if l = 1 then decide (1 ≤ v) else decide (1 ≤ v ∧ v ≤ 31)) cs2 with
    | some (d, cs3) => strptimeHour y mo d cs3
    | _ => Option.none
  | _ => Option.none

/-- Stage for the first dash and the %m directive. -/
def strptimeMonth (y : Nat) (cs : List Char) : Option PyDatetime :=
  match parseLit '-' cs with
  | some cs2 =>
    match parseField 2
        (fun l v => if l = 1 then decide (1 ≤ v) else decide (1 ≤ v ∧ v ≤ 12)) cs2 with
    | some (mo, cs3) => strptimeDay y mo cs3
    | _ => Option.none
  | _ => Option.none

/-- Entry point: the %Y directive, then the remaining stages in format
order. -/
def strptimeChars (cs : List Char) : Option PyDatetime :=
  match parseField 4 (fun l _ => decide (l = 4)) cs with
  | some (y, cs2) => strptimeMonth y cs2
  | _ => Option.none

/-- strptime on a Lean string. -/
def strptimeISO (s : String) : Option PyDatetime := strptimeChars s.data

/-- The exceptions this module can raise on the paths the claims cover:
the ValueError escaping int() inside process_data (its try block wraps
only strptime), the ValueError raised by Forum.__init__ for a foreign
server (kept as its own constructor), the KeyError of
config[siteTitle], and the TypeError raised inside urljoin when the
picture attribute resolves to a truthy non-string value. -/
inductive PyBBError where
  | valueError : PyBBError
  | notThisSoftware : PyBBError
  | keyError : String → PyBBError
  | typeError : PyBBError
deriving DecidableEq, Repr

/-- The coercion function process_data of src/PyBB.py, line for line: if
str(data).isdigit() and len(str(data)) is 13, return
datetime.fromtimestamp(int(data) / 1000) — int() raising an UNCAUGHT
ValueError when the digits are not all decimal, since the try block
wraps only the strptime call; otherwise try strptime with the fixed ISO
format, whose ValueError and TypeError are caught (the TypeError covers
every non-string argument); otherwise return data unchanged. -/
def process_data (data : PyVal) : Except PyBBError PyVal :=
  if pyIsdigit (pyStr data) && ((pyStr data).length == 13) then
    match pyInt data with
    | some n => .ok (.vdatetime (fromtimestampMs n.toNat))
    | _ => .error .valueError
  else
    match data with
    | .vstr s =>
      match strptimeISO s with
      | some dt => .ok (.vdatetime dt)
      | _ => .ok data
    | d => .ok d

/-- A decoded JSON object, as produced by json.loads on the API bodies:
an association list of string keys (Python dict, first binding wins for
lookup; the bodies the server produces have distinct keys). -/
abbrev Doc := List (String × PyVal)

/-- Python dict membership plus indexing: the value under key k, if
k is in the document. -/
def lookupDoc (d : Doc) (k : String) : Option PyVal :=
  match d.find? (fun p => p.1 == k) with
  | some p => some p.2
  | _ => Option.none

/-- ASCII lowercasing, for the case-insensitive header dict of the
requests library. -/
def strLower (s : String) : String := String.mk (s.data.map Char.toLower)

/-- Model of headers.get(k) on a requests CaseInsensitiveDict: the first
header whose name matches k up to case, if any. -/
def getHeaderCI (hs : List (String × String)) (k : String) : Option String :=
  match hs.find? (fun p => strLower p.1 == strLower k) with
  | some p => some p.2
  | _ => Option.none

/-- A scheme character of urlsplit: ASCII letters and digits, plus, dash
and dot. -/
def isSchemeChar (c : Char) : Bool :=
  c.isAlpha || c.isDigit || c = '+' || c = '-' || c = '.'

/-- The input normalisation of urlsplit: leading C0-control and space
characters are stripped, then every tab, carriage return and line feed
is removed. -/
def cleanUrl (u : String) : String :=
  String.mk ((u.data.dropWhile (fun c => decide (c.toNat ≤ 32))).filter
    (fun c => !(c = '\t' || c = '\r' || c = '\n')))

/-- Scheme prefix of a URL, as urlsplit detects it: the text before the
first colon, when that text starts with an ASCII letter and consists of
scheme characters only; the scheme is lowercased and the remainder
after the colon returned. -/
def splitScheme (u : String) : Option (String × String) :=
  match u.splitOn ":" with
  | p :: r :: rest =>
    (match p.data with
     | c :: cs =>
       if c.isAlpha && (c :: cs).all isSchemeChar then
         some (strLower p, String.intercalate ":" (r :: rest))
       else Option.none
     | _ => Option.none)
  | _ => Option.none

/-- Authority component, as urlsplit detects it: when the text starts
with two slashes, the authority runs to the next slash, question mark
or hash. -/
def splitNetloc (u : String) : Option (String × String) :=
  if u.startsWith "//" then
    let t := (u.drop 2).data
    let i := t.findIdx (fun c => c = '/' || c = '?' || c = '#')
    some (String.mk (t.take i), String.mk (t.drop i))
  else Option.none

/-- Split at the first occurrence of a character, dropping the
separator; the second component is empty when the character is absent,
matching how urlsplit leaves query and fragment empty either way. -/
def splitOnceChar (u : String) (c : Char) : String × String :=
  match u.splitOn (String.mk [c]) with
  | [] => (u, "")
  | p :: rest => (p, String.intercalate (String.mk [c]) rest)

/-- The five components of urlsplit. -/
structure UrlParts where
  scheme : String
  netloc : String
  path : String
  query : String
  fragment : String
deriving DecidableEq, Repr

/-- Model of urllib.parse.urlsplit: input normalisation, then scheme,
then authority, then the fragment after the first hash, then the query
after the first question mark of what precedes the fragment.  The
validation-only checks that raise (unbalanced brackets in the
authority, the NFKC netloc check) are not modelled. -/
def urlsplit (u : String) : UrlParts :=
  let u := cleanUrl u
  let sr := match splitScheme u with
    | some p => p
    | _ => ("", u)
  let nr := match splitNetloc sr.2 with
    | some p => p
    | _ => ("", sr.2)
  let pf := splitOnceChar nr.2 '#'
  let pq := splitOnceChar pf.1 '?'
  ⟨sr.1, nr.1, pq.1, pq.2, pf.2⟩

/-- The CPython uses_relative list: schemes whose URLs may be resolved
as relative references. -/
def usesRelative : List String :=
  ["", "ftp", "http", "gopher", "nntp", "imap", "wais", "file", "https",
   "shttp", "mms", "prospero", "rtsp", "rtsps", "rtspu", "sftp", "svn",
   "svn+ssh", "ws", "wss"]

/-- The CPython uses_netloc list: schemes that carry an authority. -/
def usesNetloc : List String :=
  ["", "ftp", "http", "gopher", "nntp", "telnet", "imap", "wais", "file",
   "mms", "https", "shttp", "snews", "prospero", "rtsp", "rtsps", "rtspu",
   "rsync", "svn", "svn+ssh", "sftp", "nfs", "git", "git+ssh", "ws", "wss"]

/-- The CPython uses_params list: schemes for which urlparse separates a
params component after a semicolon in the last path segment. -/
def usesParams : List String :=
  ["", "ftp", "hdl", "prospero", "http", "imap", "https", "shttp", "rtsp",
   "rtsps", "rtspu", "sip", "sips", "mms", "sftp", "tel"]

/-- Model of urllib.parse.urlunsplit: reattach authority (with a slash
inserted before a relative path) when there is one, or when the scheme
uses an authority and the path does not already begin with two slashes;
then scheme, query and fragment. -/
def urlunsplit (p : UrlParts) : String :=
  let u := p.path
  let u := if p.netloc ≠ "" ∨
      (p.scheme ≠ "" ∧ usesNetloc.contains p.scheme ∧ ¬u.startsWith "//") then
      "//" ++ p.netloc ++ (if u ≠ "" ∧ ¬u.startsWith "/" then "/" ++ u else u)
    else u
  let u := if p.scheme ≠ "" then p.scheme ++ ":" ++ u else u
  let u := if p.query ≠ "" then u ++ "?" ++ p.query else u
  if p.fragment ≠ "" then u ++ "#" ++ p.fragment else u

/-- Split at the first semicolon; the second component is empty when
there is none. -/
def splitSemi (s : String) : String × String :=
  match s.splitOn ";" with
  | [] => (s, "")
  | [x] => (x, "")
  | x :: rest => (x, String.intercalate ";" rest)

/-- The params split helper of urlparse: when the path contains a
slash, the last segment is split at its first semicolon; otherwise the
whole path is split at its first semicolon. -/
def splitparams (u : String) : String × String :=
  match u.splitOn "/" with
  | [] => splitSemi u
  | [x] => splitSemi x
  | x :: rest =>
    let lp := splitSemi ((x :: rest).getLastD "")
    (String.intercalate "/" ((x :: rest).dropLast ++ [lp.1]), lp.2)

/-- The path/params division of urlparse: the split applies only for
schemes in uses_params and only when the path holds a semicolon. -/
def pathParams (scheme path : String) : String × String :=
  if usesParams.contains scheme ∧ path.data.contains ';' then splitparams path
  else (path, "")

/-- Model of urllib.parse.urlunparse: a nonempty params component is
reattached to the path with a semicolon, then urlunsplit. -/
def urlunparse (p : UrlParts) (params : String) : String :=
  urlunsplit
    { p with path := if params = "" then p.path else p.path ++ ";" ++ params }

/-- Dot-segment resolution of urljoin: a double-dot segment pops the
accumulated path (silently on an empty one), a single dot is skipped. -/
def resolveDots (segs : List String) : List String :=
  segs.foldl
    (fun acc seg =>
      if seg = ".." then acc.dropLast
      else if seg = "." then acc
      else acc ++ [seg]) []

/-- The segment pre-filter of urljoin: empty segments strictly between
the first and the last are dropped (they would produce redundant
slashes on re-joining). -/
def filterInterior : List String → List String
  | [] => []
  | [a] => [a]
  | a :: b :: rest =>
    a :: (((b :: rest).dropLast.filter (fun seg => seg ≠ "")) ++
      [(b :: rest).getLastD ""])

/-- Model of urllib.parse.urljoin, following the CPython resolution: a
falsy argument short-circuits, a url of a different scheme (or of a
scheme that does not use relative references) replaces the base, a url
with an authority keeps its own path untouched, an empty url path with
empty params keeps the base path and params (and the base query when
the url has none); otherwise an absolute url path stands alone, a
relative one is appended to the base path without its last segment with
the interior empty segments dropped, and the segments undergo
dot-segment resolution, an empty result becoming the root path.  Bytes
arguments are not modelled. -/
def urljoin (base rel : String) : String :=
  if base = "" then rel
  else if rel = "" then base
  else
    let b := urlsplit base
    let r := urlsplit rel
    let scheme := if (splitScheme (cleanUrl rel)).isSome then r.scheme
      else b.scheme
    if scheme ≠ b.scheme ∨ ¬usesRelative.contains scheme then rel
    else
      let bp := pathParams scheme b.path
      let rp := pathParams scheme r.path
      let keepR := usesNetloc.contains scheme ∧ r.netloc ≠ ""
      if keepR then
        urlunparse ⟨scheme, r.netloc, rp.1, r.query, r.fragment⟩ rp.2
      else
        let netloc := if usesNetloc.contains scheme then b.netloc else r.netloc
        if rp.1 = "" ∧ rp.2 = "" then
          urlunparse ⟨scheme, netloc, bp.1,
            (if r.query = "" then b.query else r.query), r.fragment⟩ bp.2
        else
          let baseParts :=
            let ps := bp.1.splitOn "/"
            if ps.getLastD "" ≠ "" then ps.dropLast else ps
          let segs :=
            if rp.1.startsWith "/" then rp.1.splitOn "/"
            else filterInterior (baseParts ++ rp.1.splitOn "/")
          let resolved := resolveDots segs ++
            (if segs.getLast? = some "." ∨ segs.getLast? = some ".." then [""]
             else [])
          let path := String.intercalate "/" resolved
          urlunparse ⟨scheme, netloc, (if path = "" then "/" else path),
            r.query, r.fragment⟩ rp.2


/-- One outbound HTTP call, recorded in the order the module performs
them. -/
inductive Request where
  | headReq : String → Request
  | getReq : String → Request
deriving DecidableEq, Repr

/-- The network collaborator: response headers of a HEAD request, the
decoded JSON body of a GET (the spec keeps HTTP transport and JSON
decoding out of scope, so the oracle returns documents), and the raw
bytes of a GET used for images. -/
structure Net where
  headers : String → List (String × String)
  jsonBody : String → Doc
  content : String → String

/-- The Forum accessor: the fields Forum.__init__ stores.  head is the
header list of the HEAD probe, endpoint and api_url both hold the api/
URL, data and config the two fetched documents, title the coerced-free
config[siteTitle] value. -/
structure Forum where
  url : String
  head : List (String × String)
  endpoint : String
  api_url : String
  data : Doc
  config : Doc
  title : PyVal

/-- Forum.__init__ over the network oracle, together with the requests
it performs, in order.  It raises notThisSoftware exactly when the
X-Powered-By header of the HEAD response differs from NodeBB (a missing
header compares as None), before any GET is issued; afterwards it
fetches the root api/ document and the config document and reads
config[siteTitle]. -/
def Forum.init (net : Net) (url : String) : Except PyBBError Forum × List Request :=
  let head := net.headers url
  if getHeaderCI head "X-Powered-By" ≠ some "NodeBB" then
    (.error .notThisSoftware, [.headReq url])
  else
    let endpoint := urljoin url "api/"
    let data := net.jsonBody endpoint
    let configurl := urljoin endpoint "config"
    let config := net.jsonBody configurl
    let reqs := [Request.headReq url, Request.getReq endpoint, Request.getReq configurl]
    match lookupDoc config "siteTitle" with
    | some t =>
      (.ok { url := url, head := head, endpoint := endpoint, api_url := endpoint,
             data := data, config := config, title := t }, reqs)
    | _ => (.error (.keyError "siteTitle"), reqs)

/-- Forum.__getattr__: Python calls it for any name that is not an
instance or class attribute; the root API document is consulted first,
then the config document, and a key found in neither yields None; the
chosen value is passed through process_data. -/
def Forum.getattr (f : Forum) (key : String) : Except PyBBError PyVal :=
  let out :=
    match lookupDoc f.data key with
    | some v => v
    | _ =>
      match lookupDoc f.config key with
      | some v => v
      | _ => PyVal.vnone
  process_data out

/-- The User accessor: the fields User.__init__ stores. -/
structure User where
  forum : Forum
  username : String
  api_url : String
  data : Doc

/-- User.__init__: the user document is fetched from forum.endpoint
joined with user/<username> (the username is used verbatim). -/
def User.init (net : Net) (forum : Forum) (username : String) : User :=
  let api_url := urljoin forum.endpoint ("user/" ++ username)
  { forum := forum, username := username, api_url := api_url,
    data := net.jsonBody api_url }

/-- User.__getattr__: like the Forum one with the single user document
as the only backing mapping. -/
def User.getattr (u : User) (key : String) : Except PyBBError PyVal :=
  let out :=
    match lookupDoc u.data key with
    | some v => v
    | _ => PyVal.vnone
  process_data out

/-- The result of the image property: the bare URL string when PIL is
absent, or the decoded image (modelled by the fetched bytes handed to
Image.open) when it is present. -/
inductive ImageResult where
  | url : String → ImageResult
  | pil : String → ImageResult
deriving DecidableEq, Repr

/-- Python truthiness of the values of this model: None, False, zero
and empty containers are falsy. -/
def pyTruthy : PyVal → Bool
  | .vnone => false
  | .vbool b => b
  | .vint n => decide (n ≠ 0)
  | .vstr s => !s.data.isEmpty
  | .vlist xs => !xs.isEmpty
  | .vdict kvs => !kvs.isEmpty
  | .vdatetime _ => true

/-- User.image: self.picture resolves through User.__getattr__ (so it is
passed through process_data, whose exceptions the property does not
catch), then urljoin(forum.endpoint, picture) is formed.  urljoin
returns the base unchanged for any falsy second argument (None, the
empty string, zero, empty containers) before looking at its type, and
raises TypeError for a truthy non-string; with the URL in hand the
property returns it directly when PIL is missing, otherwise it fetches
the bytes and decodes them.  The endpoint a Forum builds is never
empty, so the falsy-base short-circuit of urljoin is not modelled
here. -/
def User.image (net : Net) (hasPIL : Bool) (u : User) : Except PyBBError ImageResult :=
  match User.getattr u "picture" with
  | .error e => .error e
  | .ok pic =>
    if pyTruthy pic then
      match pic with
      | .vstr s =>
        let imgurl := urljoin u.forum.endpoint s
        if hasPIL then .ok (.pil (net.content imgurl)) else .ok (.url imgurl)
      | _ => .error .typeError
    else
      let imgurl := u.forum.endpoint
      if hasPIL then .ok (.pil (net.content imgurl)) else .ok (.url imgurl)

/-- The character list of a string matching the spec pattern
YYYY-MM-DDTHH:MM:SS.ffffffZ, generalized in the width w of the
fractional part (w = 6 is the exact pattern; Python accepts w = 1..6).
Every numeric field is zero-padded to its pattern width. -/
def isoChars (y mo d h mi s f w : Nat) : List Char :=
  digitsPad 4 y ++ ['-'] ++ digitsPad 2 mo ++ ['-'] ++ digitsPad 2 d ++
    ['T'] ++ digitsPad 2 h ++ [':'] ++ digitsPad 2 mi ++ [':'] ++
    digitsPad 2 s ++ ['.'] ++ digitsPad w f ++ ['Z']

/-- The pattern string with fraction width w. -/
def isoRender (y mo d h mi s f w : Nat) : String :=
  String.mk (isoChars y mo d h mi s f w)

/-- A malformed variant: the separator between date and time is a space
instead of the literal T; the fraction width w is carried so the family
covers every fraction length. -/
def isoRenderSpace (y mo d h mi s f w : Nat) : String :=
  String.mk (digitsPad 4 y ++ ['-'] ++ digitsPad 2 mo ++ ['-'] ++ digitsPad 2 d ++
    [' '] ++ digitsPad 2 h ++ [':'] ++ digitsPad 2 mi ++ [':'] ++
    digitsPad 2 s ++ ['.'] ++ digitsPad w f ++ ['Z'])

/-- A malformed variant: the trailing Z is missing, at any fraction
width. -/
def isoRenderNoZ (y mo d h mi s f w : Nat) : String :=
  String.mk (digitsPad 4 y ++ ['-'] ++ digitsPad 2 mo ++ ['-'] ++ digitsPad 2 d ++
    ['T'] ++ digitsPad 2 h ++ [':'] ++ digitsPad 2 mi ++ [':'] ++
    digitsPad 2 s ++ ['.'] ++ digitsPad w f)

/-- Fixture network oracle: a NodeBB-identifying server returning empty
documents. -/
def netFix : Net :=
  { headers := fun _ => [("X-Powered-By", "NodeBB")],
    jsonBody := fun _ => [], content := fun _ => "" }

/-- Fixture network oracle: a server that sends no X-Powered-By header. -/
def netNoHdr : Net :=
  { headers := fun _ => [], jsonBody := fun _ => [], content := fun _ => "" }

/-- Fixture forum whose root document and config document share the key
k with different values. -/
def forumBoth : Forum :=
  { url := "https://f/", head := [("X-Powered-By", "NodeBB")],
    endpoint := "https://f/api/", api_url := "https://f/api/",
    data := [("k", .vstr "fromData")],
    config := [("k", .vstr "fromConfig"), ("siteTitle", .vstr "T")],
    title := .vstr "T" }

/-- Fixture user with a picture attribute that is an ordinary relative
URL string. -/
def userPlain : User :=
  { forum := forumBoth, username := "u", api_url := "https://f/api/user/u",
    data := [("picture", .vstr "/assets/a.png")] }

/-- Fixture user whose picture value is a 13-digit string, which the
attribute resolution coerces into a datetime. -/
def userPicTs : User :=
  { forum := forumBoth, username := "v", api_url := "https://f/api/user/v",
    data := [("picture", .vstr "1234567890123")] }


theorem digitChar_isDecDigit (n : Nat) (h : n < 10) : isDecDigit (digitChar n) = true := by
  interval_cases n <;> decide

theorem digitChar_val (n : Nat) (h : n < 10) : decDigitVal (digitChar n) = n := by
  interval_cases n <;> decide

theorem decDigitsAux_fuel (n : Nat) :
    ∀ f1 f2, n < f1 → n < f2 → decDigitsAux f1 n = decDigitsAux f2 n := by
  induction n using Nat.strong_induction_on with
  | _ n ih =>
    intro f1 f2 h1 h2
    match f1, f2 with
    | g1 + 1, g2 + 1 =>
      simp only [decDigitsAux]
      by_cases h10 : n < 10
      · simp [h10]
      · have hd : n / 10 < n := Nat.div_lt_self (by omega) (by omega)
        simp only [if_neg h10]
        rw [ih (n / 10) hd g1 g2 (by omega) (by omega)]

theorem decDigits_eq (n : Nat) :
    decDigits n =
      if n < 10 then [digitChar n]
      else decDigits (n / 10) ++ [digitChar (n % 10)] := by
  show decDigitsAux (n + 1) n = _
  simp only [decDigitsAux]
  by_cases h10 : n < 10
  · simp [h10]
  · have hd : n / 10 < n := Nat.div_lt_self (by omega) (by omega)
    simp only [if_neg h10]
    rw [decDigitsAux_fuel (n / 10) n (n / 10 + 1) (by omega) (by omega)]
    rfl

theorem decDigits_all (n : Nat) : ∀ c ∈ decDigits n, isDecDigit c = true := by
  induction n using Nat.strong_induction_on with
  | _ n ih =>
    rw [decDigits_eq]
    by_cases h10 : n < 10
    · simp only [if_pos h10, List.mem_singleton]
      intro c hc
      subst hc
      exact digitChar_isDecDigit n h10
    · simp only [if_neg h10]
      intro c hc
      rcases List.mem_append.mp hc with hm | hm
      · exact ih (n / 10) (Nat.div_lt_self (by omega) (by omega)) c hm
      · rw [List.mem_singleton.mp hm]
        exact digitChar_isDecDigit _ (Nat.mod_lt _ (by omega))

theorem decDigits_ne_nil (n : Nat) : decDigits n ≠ [] := by
  rw [decDigits_eq]
  by_cases h10 : n < 10 <;> simp [h10]

theorem natOfDigits_snoc (l : List Char) (c : Char) :
    natOfDigits (l ++ [c]) = 10 * natOfDigits l + decDigitVal c := by
  simp [natOfDigits, List.foldl_append]

theorem natOfDigits_decDigits (n : Nat) : natOfDigits (decDigits n) = n := by
  induction n using Nat.strong_induction_on with
  | _ n ih =>
    rw [decDigits_eq]
    by_cases h10 : n < 10
    · simp only [if_pos h10, natOfDigits, List.foldl_cons, List.foldl_nil]
      rw [digitChar_val n h10]
      omega
    · simp only [if_neg h10]
      rw [natOfDigits_snoc, ih (n / 10) (Nat.div_lt_self (by omega) (by omega)),
        digitChar_val (n % 10) (Nat.mod_lt _ (by omega))]
      omega

theorem decDigits_len_le (w : Nat) : ∀ n, 1 ≤ w → n < 10 ^ w → (decDigits n).length ≤ w := by
  induction w with
  | zero => omega
  | succ w ihw =>
    intro n _ hn
    rw [decDigits_eq]
    by_cases h10 : n < 10
    · simp [h10]
    · have hw1 : 1 ≤ w := by
        rcases Nat.eq_zero_or_pos w with h0 | h1
        · subst h0; norm_num at hn; omega
        · exact h1
      have hq : n / 10 < 10 ^ w := by
        rw [Nat.div_lt_iff_lt_mul (by norm_num)]
        calc n < 10 ^ (w + 1) := hn
        _ = 10 ^ w * 10 := by rw [pow_succ]
      have := ihw (n / 10) hw1 hq
      simp only [if_neg h10, List.length_append, List.length_singleton]
      omega

theorem digitsPad_all (w n : Nat) : ∀ c ∈ digitsPad w n, isDecDigit c = true := by
  intro c hc
  rcases List.mem_append.mp hc with hm | hm
  · rw [List.eq_of_mem_replicate hm]
    decide
  · exact decDigits_all n c hm

theorem digitsPad_length (w n : Nat) (hw : 1 ≤ w) (hn : n < 10 ^ w) :
    (digitsPad w n).length = w := by
  have := decDigits_len_le w n hw hn
  simp only [digitsPad, List.length_append, List.length_replicate]
  omega

theorem natOfDigits_replicate_zero (k : Nat) (l : List Char) :
    natOfDigits (List.replicate k '0' ++ l) = natOfDigits l := by
  induction k with
  | zero => simp
  | succ k ih =>
    rw [List.replicate_succ, List.cons_append]
    have h0 : decDigitVal '0' = 0 := by decide
    simpa [natOfDigits, h0] using ih

theorem natOfDigits_digitsPad (w n : Nat) : natOfDigits (digitsPad w n) = n := by
  rw [digitsPad, natOfDigits_replicate_zero, natOfDigits_decDigits]

theorem takeDigits_all (l : List Char) (hall : ∀ c ∈ l, isDecDigit c = true) :
    takeDigits l = (l, []) := by
  induction l with
  | nil => rfl
  | cons a as ih =>
    have ha : isDecDigit a = true := hall a (by simp)
    simp only [takeDigits, ha, if_pos]
    rw [ih (fun c hc => hall c (by simp [hc]))]

theorem takeDigits_append (l : List Char) (hall : ∀ c ∈ l, isDecDigit c = true)
    (c0 : Char) (hc : isDecDigit c0 = false) (r : List Char) :
    takeDigits (l ++ c0 :: r) = (l, c0 :: r) := by
  induction l with
  | nil => simp [takeDigits, hc]
  | cons a as ih =>
    have ha : isDecDigit a = true := hall a (by simp)
    simp only [List.cons_append, takeDigits, ha, if_pos, List.append_eq]
    rw [ih (fun c hcm => hall c (by simp [hcm]))]

theorem parseField_pad (m w n : Nat) (valid : Nat → Nat → Bool) (c0 : Char) (r : List Char)
    (hw : 1 ≤ w) (hwm : w ≤ m) (hn : n < 10 ^ w) (hc : isDecDigit c0 = false)
    (hv : valid w n = true) :
    parseField m valid (digitsPad w n ++ c0 :: r) = some (n, c0 :: r) := by
  have hlen := digitsPad_length w n hw hn
  simp only [parseField, takeDigits_append _ (digitsPad_all w n) c0 hc r]
  rw [if_neg (by rw [hlen]; omega)]
  rw [natOfDigits_digitsPad, hlen, hv]
  simp

theorem parseFrac_pad (w f : Nat) (c0 : Char) (r : List Char)
    (hw : 1 ≤ w) (hw6 : w ≤ 6) (hf : f < 10 ^ w) (hc : isDecDigit c0 = false) :
    parseFrac (digitsPad w f ++ c0 :: r) = some (f * 10 ^ (6 - w), c0 :: r) := by
  have hlen := digitsPad_length w f hw hf
  simp only [parseFrac, takeDigits_append _ (digitsPad_all w f) c0 hc r]
  rw [if_pos (by rw [hlen]; omega), natOfDigits_digitsPad, hlen]

theorem parseFrac_pad_end (w f : Nat) (hw : 1 ≤ w) (hw6 : w ≤ 6) (hf : f < 10 ^ w) :
    parseFrac (digitsPad w f) = some (f * 10 ^ (6 - w), []) := by
  have hlen := digitsPad_length w f hw hf
  simp only [parseFrac, takeDigits_all _ (digitsPad_all w f)]
  rw [if_pos (by rw [hlen]; omega), natOfDigits_digitsPad, hlen]

theorem parseFrac_pad_long (w f : Nat) (c0 : Char) (r : List Char) (hw : 7 ≤ w)
    (hf : f < 10 ^ w) (hc : isDecDigit c0 = false) :
    parseFrac (digitsPad w f ++ c0 :: r) = Option.none := by
  have hlen := digitsPad_length w f (by omega) hf
  simp only [parseFrac, takeDigits_append _ (digitsPad_all w f) c0 hc r]
  rw [if_neg (by rw [hlen]; omega)]

theorem parseFrac_end_long (w f : Nat) (hw : 7 ≤ w) (hf : f < 10 ^ w) :
    parseFrac (digitsPad w f) = Option.none := by
  have hlen := digitsPad_length w f (by omega) hf
  simp only [parseFrac, takeDigits_all _ (digitsPad_all w f)]
  rw [if_neg (by rw [hlen]; omega)]

theorem pyIsdigit_false_of_mem (l : List Char) (c : Char) (hm : c ∈ l)
    (hc : pyCharIsdigit c = false) : pyIsdigit (String.mk l) = false := by
  have hall : l.all pyCharIsdigit = false :=
    List.all_eq_false.mpr ⟨c, hm, by simp [hc]⟩
  simp [pyIsdigit, hall]

theorem isEmpty_false_of_ne_nil (l : List Char) (h : l ≠ []) : l.isEmpty = false := by
  cases l with
  | nil => exact absurd rfl h
  | cons a as => rfl

theorem pyIsdigit_of_decimal (s : String) (hne : s.data ≠ [])
    (h : ∀ c ∈ s.data, isDecDigit c = true) : pyIsdigit s = true := by
  have hall : s.data.all pyCharIsdigit = true :=
    List.all_eq_true.mpr (fun c hc => by simp [pyCharIsdigit, h c hc])
  simp [pyIsdigit, hall, isEmpty_false_of_ne_nil s.data hne]

theorem pyInt_vstr_decimal (s : String) (hne : s.data ≠ [])
    (h : ∀ c ∈ s.data, isDecDigit c = true) :
    pyInt (PyVal.vstr s) = some ((natOfDigits s.data : Nat) : Int) := by
  have hall : s.data.all isDecDigit = true := List.all_eq_true.mpr h
  simp [pyInt, hall, isEmpty_false_of_ne_nil s.data hne]

theorem parseLit_cons_eq (c x : Char) (r : List Char) (h : x.toLower = c) :
    parseLit c (x :: r) = some r := by
  simp [parseLit, h]

theorem parseLit_cons_ne (c x : Char) (r : List Char) (h : x.toLower ≠ c) :
    parseLit c (x :: r) = Option.none := by
  simp [parseLit, h]

theorem daysInMonth_le (y m : Nat) : daysInMonth y m ≤ 31 := by
  unfold daysInMonth
  split_ifs <;> omega

theorem parse_year (y : Nat) (hy : y < 10 ^ 4) (c : Char) (hc : isDecDigit c = false)
    (r : List Char) :
    parseField 4 (fun l _ => decide (l = 4)) (digitsPad 4 y ++ c :: r) = some (y, c :: r) :=
  parseField_pad _ _ _ _ _ _ (by omega) (by omega) hy hc (by simp)

theorem parse_month (mo : Nat) (h1 : 1 ≤ mo) (h2 : mo ≤ 12) (c : Char)
    (hc : isDecDigit c = false) (r : List Char) :
    parseField 2 (fun l v => if l = 1 then decide (1 ≤ v) else decide (1 ≤ v ∧ v ≤ 12))
      (digitsPad 2 mo ++ c :: r) = some (mo, c :: r) :=
  parseField_pad _ _ _ _ _ _ (by omega) (by omega) (by norm_num; omega) hc
    (by simp [h1, h2])

theorem parse_dayf (d : Nat) (h1 : 1 ≤ d) (h2 : d ≤ 31) (c : Char)
    (hc : isDecDigit c = false) (r : List Char) :
    parseField 2 (fun l v => if l = 1 then decide (1 ≤ v) else decide (1 ≤ v ∧ v ≤ 31))
      (digitsPad 2 d ++ c :: r) = some (d, c :: r) :=
  parseField_pad _ _ _ _ _ _ (by omega) (by omega) (by norm_num; omega) hc
    (by simp [h1, h2])

theorem parse_hour (h : Nat) (hh : h ≤ 23) (c : Char) (hc : isDecDigit c = false)
    (r : List Char) :
    parseField 2 (fun l v => if l = 1 then true else decide (v ≤ 23))
      (digitsPad 2 h ++ c :: r) = some (h, c :: r) :=
  parseField_pad _ _ _ _ _ _ (by omega) (by omega) (by norm_num; omega) hc (by simp [hh])

theorem parse_minute (mi : Nat) (hmi : mi ≤ 59) (c : Char) (hc : isDecDigit c = false)
    (r : List Char) :
    parseField 2 (fun l v => if l = 1 then true else decide (v ≤ 59))
      (digitsPad 2 mi ++ c :: r) = some (mi, c :: r) :=
  parseField_pad _ _ _ _ _ _ (by omega) (by omega) (by norm_num; omega) hc (by simp [hmi])

theorem parse_second (s : Nat) (hs : s ≤ 61) (c : Char) (hc : isDecDigit c = false)
    (r : List Char) :
    parseField 2 (fun l v => if l = 1 then true else decide (v ≤ 61))
      (digitsPad 2 s ++ c :: r) = some (s, c :: r) :=
  parseField_pad _ _ _ _ _ _ (by omega) (by omega) (by norm_num; omega) hc
    (by simp; omega)

theorem strptimeChars_iso (y mo d h mi s f w : Nat)
    (hy1 : 1 ≤ y) (hy : y ≤ 9999) (hmo1 : 1 ≤ mo) (hmo : mo ≤ 12)
    (hd1 : 1 ≤ d) (hd : d ≤ daysInMonth y mo) (hh : h ≤ 23) (hmi : mi ≤ 59)
    (hs : s ≤ 59) (hw1 : 1 ≤ w) (hw : w ≤ 6) (hf : f < 10 ^ w) :
    strptimeChars (isoChars y mo d h mi s f w) =
      some ⟨y, mo, d, h, mi, s, f * 10 ^ (6 - w)⟩ := by
  have hdm : d ≤ 31 := le_trans hd (daysInMonth_le y mo)
  have hy4 : y < 10 ^ 4 := by norm_num; omega
  have ef : parseFrac (digitsPad w f ++ 'Z' :: []) = some (f * 10 ^ (6 - w), 'Z' :: []) :=
    parseFrac_pad _ _ _ _ hw1 hw hf (by decide)
  simp only [isoChars, List.append_assoc, List.cons_append, List.singleton_append,
    List.nil_append]
  simp only [strptimeChars, parse_year y hy4 '-' (by decide),
    strptimeMonth, parseLit_cons_eq '-' '-' _ (by decide),
    parse_month mo hmo1 hmo '-' (by decide),
    strptimeDay, parse_dayf d hd1 hdm 'T' (by decide),
    strptimeHour, parseLit_cons_eq 't' 'T' _ (by decide),
    parse_hour h hh ':' (by decide),
    strptimeMinute, parseLit_cons_eq ':' ':' _ (by decide),
    parse_minute mi hmi ':' (by decide),
    strptimeSecond, parse_second s (by omega) '.' (by decide),
    strptimeFrac, parseLit_cons_eq '.' '.' _ (by decide), ef,
    strptimeZEnd, parseLit_cons_eq 'z' 'Z' _ (by decide)]
  rw [if_pos ⟨hy1, hd, hs⟩]

theorem parseLit_nil (c : Char) : parseLit c [] = Option.none := rfl

theorem strptime_decimal (s : String) (hall : ∀ c ∈ s.data, isDecDigit c = true) :
    strptimeISO s = Option.none := by
  have ht := takeDigits_all s.data hall
  by_cases h4 : s.data.length = 4
  · have hp : parseField 4 (fun l _ => decide (l = 4)) s.data
        = some (natOfDigits s.data, []) := by
      simp [parseField, ht, h4]
    simp [strptimeISO, strptimeChars, hp, strptimeMonth, parseLit]
  · have hp : parseField 4 (fun l _ => decide (l = 4)) s.data = Option.none := by
      simp only [parseField, ht]
      split_ifs with h0 hv
      · rfl
      · rw [decide_eq_true_eq] at hv
        exact absurd hv h4
      · rfl
    simp [strptimeISO, strptimeChars, hp]

theorem strptime_iso_space (y mo d h mi s f w : Nat)
    (hy : y ≤ 9999) (hmo1 : 1 ≤ mo) (hmo : mo ≤ 12)
    (hd1 : 1 ≤ d) (hd : d ≤ 31) :
    strptimeISO (isoRenderSpace y mo d h mi s f w) = Option.none := by
  have hy4 : y < 10 ^ 4 := by norm_num; omega
  simp only [strptimeISO, isoRenderSpace, List.append_assoc, List.cons_append,
    List.singleton_append, List.nil_append]
  simp only [strptimeChars, parse_year y hy4 '-' (by decide),
    strptimeMonth, parseLit_cons_eq '-' '-' _ (by decide),
    parse_month mo hmo1 hmo '-' (by decide),
    strptimeDay, parse_dayf d hd1 hd ' ' (by decide),
    strptimeHour, parseLit_cons_ne 't' ' ' _ (by decide)]

theorem strptime_iso_noZ (y mo d h mi s f w : Nat)
    (hy : y ≤ 9999) (hmo1 : 1 ≤ mo) (hmo : mo ≤ 12)
    (hd1 : 1 ≤ d) (hd : d ≤ 31) (hh : h ≤ 23) (hmi : mi ≤ 59) (hs : s ≤ 59)
    (hw1 : 1 ≤ w) (hf : f < 10 ^ w) :
    strptimeISO (isoRenderNoZ y mo d h mi s f w) = Option.none := by
  have hy4 : y < 10 ^ 4 := by norm_num; omega
  by_cases hw6 : w ≤ 6
  · have ef : parseFrac (digitsPad w f) = some (f * 10 ^ (6 - w), []) :=
      parseFrac_pad_end _ _ hw1 hw6 hf
    simp only [strptimeISO, isoRenderNoZ, List.append_assoc, List.cons_append,
      List.singleton_append, List.nil_append]
    simp only [strptimeChars, parse_year y hy4 '-' (by decide),
      strptimeMonth, parseLit_cons_eq '-' '-' _ (by decide),
      parse_month mo hmo1 hmo '-' (by decide),
      strptimeDay, parse_dayf d hd1 hd 'T' (by decide),
      strptimeHour, parseLit_cons_eq 't' 'T' _ (by decide),
      parse_hour h hh ':' (by decide),
      strptimeMinute, parseLit_cons_eq ':' ':' _ (by decide),
      parse_minute mi hmi ':' (by decide),
      strptimeSecond, parse_second s (by omega) '.' (by decide),
      strptimeFrac, parseLit_cons_eq '.' '.' _ (by decide), ef,
      strptimeZEnd, parseLit_nil]
  · have ef : parseFrac (digitsPad w f) = Option.none :=
      parseFrac_end_long _ _ (by omega) hf
    simp only [strptimeISO, isoRenderNoZ, List.append_assoc, List.cons_append,
      List.singleton_append, List.nil_append]
    simp only [strptimeChars, parse_year y hy4 '-' (by decide),
      strptimeMonth, parseLit_cons_eq '-' '-' _ (by decide),
      parse_month mo hmo1 hmo '-' (by decide),
      strptimeDay, parse_dayf d hd1 hd 'T' (by decide),
      strptimeHour, parseLit_cons_eq 't' 'T' _ (by decide),
      parse_hour h hh ':' (by decide),
      strptimeMinute, parseLit_cons_eq ':' ':' _ (by decide),
      parse_minute mi hmi ':' (by decide),
      strptimeSecond, parse_second s (by omega) '.' (by decide),
      strptimeFrac, parseLit_cons_eq '.' '.' _ (by decide), ef]

theorem strptime_iso_fracLong (y mo d h mi s f w : Nat)
    (hy : y ≤ 9999) (hmo1 : 1 ≤ mo) (hmo : mo ≤ 12) (hd1 : 1 ≤ d) (hd : d ≤ 31)
    (hh : h ≤ 23) (hmi : mi ≤ 59) (hs : s ≤ 59) (hw : 7 ≤ w) (hf : f < 10 ^ w) :
    strptimeISO (isoRender y mo d h mi s f w) = Option.none := by
  have hy4 : y < 10 ^ 4 := by norm_num; omega
  have ef : parseFrac (digitsPad w f ++ 'Z' :: []) = Option.none :=
    parseFrac_pad_long w f 'Z' [] hw hf (by decide)
  simp only [strptimeISO, isoRender, isoChars, List.append_assoc, List.cons_append,
    List.singleton_append, List.nil_append]
  simp only [strptimeChars, parse_year y hy4 '-' (by decide),
    strptimeMonth, parseLit_cons_eq '-' '-' _ (by decide),
    parse_month mo hmo1 hmo '-' (by decide),
    strptimeDay, parse_dayf d hd1 hd 'T' (by decide),
    strptimeHour, parseLit_cons_eq 't' 'T' _ (by decide),
    parse_hour h hh ':' (by decide),
    strptimeMinute, parseLit_cons_eq ':' ':' _ (by decide),
    parse_minute mi hmi ':' (by decide),
    strptimeSecond, parse_second s (by omega) '.' (by decide),
    strptimeFrac, parseLit_cons_eq '.' '.' _ (by decide), ef]

theorem pyIsdigit_isoRender (y mo d h mi s f w : Nat) :
    pyIsdigit (isoRender y mo d h mi s f w) = false :=
  pyIsdigit_false_of_mem _ '-' (by simp [isoChars]) (by decide)

theorem pyIsdigit_isoRenderSpace (y mo d h mi s f w : Nat) :
    pyIsdigit (isoRenderSpace y mo d h mi s f w) = false :=
  pyIsdigit_false_of_mem _ '-' (by simp) (by decide)

theorem pyIsdigit_isoRenderNoZ (y mo d h mi s f w : Nat) :
    pyIsdigit (isoRenderNoZ y mo d h mi s f w) = false :=
  pyIsdigit_false_of_mem _ '-' (by simp) (by decide)

theorem pyStr_vstr (s : String) : pyStr (PyVal.vstr s) = s := rfl

theorem process_data_ms (v : PyVal) (n : Int) (h1 : pyIsdigit (pyStr v) = true)
    (h2 : (pyStr v).length = 13) (h3 : pyInt v = some n) :
    process_data v = Except.ok (PyVal.vdatetime (fromtimestampMs n.toNat)) := by
  simp [process_data, h1, h2, h3]

theorem process_data_raises (v : PyVal) (h1 : pyIsdigit (pyStr v) = true)
    (h2 : (pyStr v).length = 13) (h3 : pyInt v = Option.none) :
    process_data v = Except.error PyBBError.valueError := by
  simp [process_data, h1, h2, h3]

theorem process_data_vstr_of_parse (s : String) (dt : PyDatetime)
    (h1 : pyIsdigit s = false) (h2 : strptimeISO s = some dt) :
    process_data (PyVal.vstr s) = Except.ok (PyVal.vdatetime dt) := by
  simp [process_data, pyStr_vstr, h1, h2]

theorem process_data_vstr_unchanged (s : String)
    (h1 : pyIsdigit s = false) (h2 : strptimeISO s = Option.none) :
    process_data (PyVal.vstr s) = Except.ok (PyVal.vstr s) := by
  simp [process_data, pyStr_vstr, h1, h2]

theorem process_data_fallback (v : PyVal)
    (h1 : (pyIsdigit (pyStr v) && ((pyStr v).length == 13)) = false)
    (h2 : ∀ s, v = PyVal.vstr s → strptimeISO s = Option.none) :
    process_data v = Except.ok v := by
  unfold process_data
  rw [if_neg (by simp [h1])]
  cases v with
  | vstr s => simp [h2 s rfl]
  | vnone => rfl
  | vbool b => rfl
  | vint n => rfl
  | vlist l => rfl
  | vdict kvs => rfl
  | vdatetime dt => rfl

theorem process_data_vnone : process_data PyVal.vnone = Except.ok PyVal.vnone := rfl

theorem urljoin_empty_rel (b : String) : urljoin b "" = b := by
  unfold urljoin
  by_cases hb : b = ""
  · simp [hb]
  · simp [hb]

/-- C1 (amended): process_data applies its strategies in strict order,
with the first strategy either converting or raising: when the
stringified value passes str.isdigit at exactly 13 characters, the
millisecond branch runs — converting when int() succeeds (all digits
decimal) and raising the uncaught ValueError of int() when some digit
character is not decimal; only when that guard fails is the ISO parse
tried, and when it too fails the input is returned completely
unchanged, whatever its type. -/
theorem process_data_strategy_order (data : PyVal) :
    (∀ n, (pyIsdigit (pyStr data) && ((pyStr data).length == 13)) = true →
      pyInt data = some n →
      process_data data = Except.ok (PyVal.vdatetime (fromtimestampMs n.toNat)))
  ∧ ((pyIsdigit (pyStr data) && ((pyStr data).length == 13)) = true →
      pyInt data = Option.none →
      process_data data = Except.error PyBBError.valueError)
  ∧ (∀ s dt, data = PyVal.vstr s →
      (pyIsdigit (pyStr data) && ((pyStr data).length == 13)) = false →
      strptimeISO s = some dt →
      process_data data = Except.ok (PyVal.vdatetime dt))
  ∧ ((pyIsdigit (pyStr data) && ((pyStr data).length == 13)) = false →
      (∀ s, data = PyVal.vstr s → strptimeISO s = Option.none) →
      process_data data = Except.ok data)
  ∧ ((pyStr data).length = 13 → pyIsdigit (pyStr data) = false →
      (∀ s, data = PyVal.vstr s → strptimeISO s = Option.none) →
      process_data data = Except.ok data) := by
  refine ⟨?_, ?_, ?_, ?_, ?_⟩
  · intro n hg h3
    simp only [Bool.and_eq_true] at hg
    obtain ⟨h1, h2⟩ := hg
    exact process_data_ms data n h1 (by simpa using h2) h3
  · intro hg h3
    simp only [Bool.and_eq_true] at hg
    obtain ⟨h1, h2⟩ := hg
    exact process_data_raises data h1 (by simpa using h2) h3
  · intro s dt hv hg hp
    subst hv
    unfold process_data
    rw [if_neg (by simp [hg])]
    simp [hp]
  · exact process_data_fallback data
  · intro _ hdig hnone
    exact process_data_fallback data (by simp [hdig]) hnone

/-- C1 counterexample (to the frozen claim): the thirteen-character
superscript-three string passes the str.isdigit guard, so the first
strategy runs, yet neither strategy succeeds — and instead of being
returned completely unchanged the value makes the function raise the
ValueError of int(). -/
theorem strategy_order_counterexample :
    process_data (PyVal.vstr (String.mk (List.replicate 13 '³')))
        = Except.error PyBBError.valueError
  ∧ process_data (PyVal.vstr (String.mk (List.replicate 13 '³')))
        ≠ Except.ok (PyVal.vstr (String.mk (List.replicate 13 '³'))) := by
  constructor
  · rfl
  · intro h
    rw [show process_data (PyVal.vstr (String.mk (List.replicate 13 '³')))
        = Except.error PyBBError.valueError from rfl] at h
    exact Except.noConfusion h

/-- C2 (amended): a string of exactly 13 decimal digits (category Nd,
any script) is converted to the timestamp lying value milliseconds
after the epoch; a nonempty all-decimal string of any other length is
returned unchanged; a string failing str.isdigit is never converted by
the millisecond derivation (only the ISO attempt applies); and a
13-character string passing str.isdigit that contains a non-decimal
digit character makes the function raise the ValueError of int(). -/
theorem coercion_digit13 :
    (∀ s : String, (∀ c ∈ s.data, isDecDigit c = true) → s.length = 13 →
      process_data (PyVal.vstr s)
        = Except.ok (PyVal.vdatetime (fromtimestampMs (natOfDigits s.data))))
  ∧ (∀ s : String, s.data ≠ [] → (∀ c ∈ s.data, isDecDigit c = true) →
      s.length ≠ 13 →
      process_data (PyVal.vstr s) = Except.ok (PyVal.vstr s))
  ∧ (∀ s : String, pyIsdigit s = false →
      process_data (PyVal.vstr s)
        = Except.ok (((strptimeISO s).map PyVal.vdatetime).getD (PyVal.vstr s)))
  ∧ (∀ s : String, pyIsdigit s = true → s.length = 13 →
      (∃ c ∈ s.data, isDecDigit c = false) →
      process_data (PyVal.vstr s) = Except.error PyBBError.valueError) := by
  refine ⟨?_, ?_, ?_, ?_⟩
  · intro s hdec h13
    have hne : s.data ≠ [] := by
      intro h0
      have h13' : s.data.length = 13 := h13
      rw [h0] at h13'
      simp at h13'
    rw [process_data_ms (PyVal.vstr s) ((natOfDigits s.data : Nat) : Int)
      (pyIsdigit_of_decimal s hne hdec) h13 (pyInt_vstr_decimal s hne hdec)]
    rw [Int.toNat_natCast]
  · intro s hne hdec h13
    apply process_data_fallback
    · simp [pyStr_vstr, h13]
    · intro s' h'
      cases h'
      exact strptime_decimal s hdec
  · intro s h1
    cases hp : strptimeISO s with
    | none => simp [process_data_vstr_unchanged s h1 hp, hp]
    | some dt => simp [process_data_vstr_of_parse s dt h1 hp, hp]
  · intro s hdig h13 hex
    obtain ⟨c, hcm, hcdec⟩ := hex
    apply process_data_raises (PyVal.vstr s) hdig h13
    have hall : s.data.all isDecDigit = false :=
      List.all_eq_false.mpr ⟨c, hcm, by simp [hcdec]⟩
    simp [pyInt, hall]

/-- C2 counterexample (to the frozen claim): the thirteen-character
Arabic-Indic digit string has no character that is a digit in the
claim's 0-9 sense, yet the coercion derives a millisecond timestamp
from it (int() reads Nd digits of any script). -/
theorem digit13_counterexample :
    process_data (PyVal.vstr (String.mk (List.replicate 13 '١')))
        = Except.ok (PyVal.vdatetime (fromtimestampMs 1111111111111))
  ∧ (∀ c ∈ (String.mk (List.replicate 13 '١')).data, c.isDigit = false) := by
  constructor
  · rfl
  · intro c hc
    rw [List.eq_of_mem_replicate hc]
    decide

/-- C8 (code bug): the coercion function is not total and can raise:
the thirteen-character superscript-two string passes str.isdigit (so
the millisecond branch is taken) but is rejected by int(), whose
ValueError is raised outside the try block that only wraps the strptime
call, escaping the function. -/
theorem process_data_superscript_raises :
    process_data (PyVal.vstr (String.mk (List.replicate 13 '²')))
        = Except.error PyBBError.valueError
  ∧ pyIsdigit (String.mk (List.replicate 13 '²')) = true := ⟨rfl, rfl⟩

/-- C9: coercion is idempotent on non-convertible inputs: when the
13-digit check fails and the value is not an ISO-parsable string,
running the result of the coercion through the coercion again changes
nothing. -/
theorem coercion_idempotent (x : PyVal)
    (h1 : (pyIsdigit (pyStr x) && ((pyStr x).length == 13)) = false)
    (h2 : ∀ s, x = PyVal.vstr s → strptimeISO s = Option.none) :
    (process_data x).bind process_data = process_data x := by
  rw [process_data_fallback x h1 h2]
  show process_data x = Except.ok x
  exact process_data_fallback x h1 h2

/-- C10: a native integer whose decimal representation is exactly 13
digits is converted to the same timestamp as the equivalent 13-digit
string, because the check stringifies the value first. -/
theorem coercion_int13 (n : Int)
    (h1 : pyIsdigit (pyStr (PyVal.vint n)) = true)
    (h2 : (pyStr (PyVal.vint n)).length = 13) :
    process_data (PyVal.vint n)
        = Except.ok (PyVal.vdatetime (fromtimestampMs n.toNat))
  ∧ process_data (PyVal.vint n)
      = process_data (PyVal.vstr (pyStr (PyVal.vint n))) := by
  have hms : process_data (PyVal.vint n)
      = Except.ok (PyVal.vdatetime (fromtimestampMs n.toNat)) :=
    process_data_ms (PyVal.vint n) n h1 h2 rfl
  have hn0 : ¬n < 0 := by
    intro hneg
    have hr : pyStr (PyVal.vint n) = String.mk ('-' :: decDigits (-n).toNat) := by
      simp [pyStr, pyReprStr, intStr, if_pos hneg]
    rw [hr, pyIsdigit_false_of_mem ('-' :: decDigits (-n).toNat) '-' (by simp)
      (by decide)] at h1
    exact Bool.noConfusion h1
  have hrepr : pyStr (PyVal.vint n) = String.mk (decDigits n.toNat) := by
    simp [pyStr, pyReprStr, intStr, if_neg hn0]
  refine ⟨hms, ?_⟩
  rw [hms, hrepr]
  have h1' : pyIsdigit (String.mk (decDigits n.toNat)) = true := by
    rw [← hrepr]; exact h1
  have h2' : (String.mk (decDigits n.toNat)).length = 13 := by
    rw [← hrepr]; exact h2
  rw [process_data_ms (PyVal.vstr (String.mk (decDigits n.toNat)))
      ((natOfDigits (decDigits n.toNat) : Nat) : Int) h1' h2'
      (pyInt_vstr_decimal _ (decDigits_ne_nil n.toNat)
        (fun c hc => decDigits_all n.toNat c hc))]
  rw [Int.toNat_natCast, natOfDigits_decDigits]

/-- C3 counterexample (to the frozen claim): the string
2021-01-01T00:00:00.1Z has a one-digit fractional-seconds part, a
malformed variant according to the claim, yet the coercion function
parses it (Python %f accepts one to six digits) instead of returning it
unchanged. -/
theorem iso_fraction_counterexample :
    process_data (PyVal.vstr "2021-01-01T00:00:00.1Z")
        = Except.ok (PyVal.vdatetime ⟨2021, 1, 1, 0, 0, 0, 100000⟩)
  ∧ process_data (PyVal.vstr "2021-01-01T00:00:00.1Z")
        ≠ Except.ok (PyVal.vstr "2021-01-01T00:00:00.1Z") := by
  constructor
  · rfl
  · intro h
    rw [show process_data (PyVal.vstr "2021-01-01T00:00:00.1Z")
        = Except.ok (PyVal.vdatetime ⟨2021, 1, 1, 0, 0, 0, 100000⟩) from rfl] at h
    exact PyVal.noConfusion (Except.ok.inj h)

/-- C3 (amended): every pattern string with in-range field values and a
fractional part of one to six digits is parsed to the corresponding
timestamp, the fraction right-padded with zeros to microseconds (the
exact six-digit pattern included); a space separator in place of the T
(at any fraction width), a missing trailing Z (at any fraction width),
or a fractional part of seven or more digits makes the string fall
through and be returned unchanged. -/
theorem iso_pattern_coercion :
    (∀ y mo d h mi s f w, 1 ≤ y → y ≤ 9999 → 1 ≤ mo → mo ≤ 12 → 1 ≤ d →
      d ≤ daysInMonth y mo → h ≤ 23 → mi ≤ 59 → s ≤ 59 → 1 ≤ w → w ≤ 6 →
      f < 10 ^ w →
      process_data (PyVal.vstr (isoRender y mo d h mi s f w)) =
        Except.ok (PyVal.vdatetime ⟨y, mo, d, h, mi, s, f * 10 ^ (6 - w)⟩))
  ∧ (∀ y mo d h mi s f w, y ≤ 9999 → 1 ≤ mo → mo ≤ 12 → 1 ≤ d → d ≤ 31 →
      process_data (PyVal.vstr (isoRenderSpace y mo d h mi s f w)) =
        Except.ok (PyVal.vstr (isoRenderSpace y mo d h mi s f w)))
  ∧ (∀ y mo d h mi s f w, y ≤ 9999 → 1 ≤ mo → mo ≤ 12 → 1 ≤ d → d ≤ 31 →
      h ≤ 23 → mi ≤ 59 → s ≤ 59 → 1 ≤ w → f < 10 ^ w →
      process_data (PyVal.vstr (isoRenderNoZ y mo d h mi s f w)) =
        Except.ok (PyVal.vstr (isoRenderNoZ y mo d h mi s f w)))
  ∧ (∀ y mo d h mi s f w, y ≤ 9999 → 1 ≤ mo → mo ≤ 12 → 1 ≤ d → d ≤ 31 →
      h ≤ 23 → mi ≤ 59 → s ≤ 59 → 7 ≤ w → f < 10 ^ w →
      process_data (PyVal.vstr (isoRender y mo d h mi s f w)) =
        Except.ok (PyVal.vstr (isoRender y mo d h mi s f w))) := by
  refine ⟨?_, ?_, ?_, ?_⟩
  · intro y mo d h mi s f w hy1 hy hmo1 hmo hd1 hd hh hmi hs hw1 hw hf
    exact process_data_vstr_of_parse _ _ (pyIsdigit_isoRender y mo d h mi s f w)
      (strptimeChars_iso y mo d h mi s f w hy1 hy hmo1 hmo hd1 hd hh hmi hs hw1 hw hf)
  · intro y mo d h mi s f w hy hmo1 hmo hd1 hd
    exact process_data_vstr_unchanged _ (pyIsdigit_isoRenderSpace y mo d h mi s f w)
      (strptime_iso_space y mo d h mi s f w hy hmo1 hmo hd1 hd)
  · intro y mo d h mi s f w hy hmo1 hmo hd1 hd hh hmi hs hw1 hf
    exact process_data_vstr_unchanged _ (pyIsdigit_isoRenderNoZ y mo d h mi s f w)
      (strptime_iso_noZ y mo d h mi s f w hy hmo1 hmo hd1 hd hh hmi hs hw1 hf)
  · intro y mo d h mi s f w hy hmo1 hmo hd1 hd hh hmi hs hw hf
    exact process_data_vstr_unchanged _ (pyIsdigit_isoRender y mo d h mi s f w)
      (strptime_iso_fracLong y mo d h mi s f w hy hmo1 hmo hd1 hd hh hmi hs hw hf)

/-- C4: a key present in both the root API document and the config
document resolves to the root API document's value, after coercion;
the config value is never consulted. -/
theorem forum_getattr_primary (f2 : Forum) (k : String) (v : PyVal)
    (hd : lookupDoc f2.data k = some v)
    (_hc : (lookupDoc f2.config k).isSome = true) :
    Forum.getattr f2 k = process_data v := by
  simp [Forum.getattr, hd]

/-- C5: a key absent from every backing document resolves to the None
sentinel without an exception, both on a Forum (neither in data nor
config) and on a User (not in data). -/
theorem getattr_missing (f2 : Forum) (u : User) (k k2 : String)
    (h1 : lookupDoc f2.data k = Option.none)
    (h2 : lookupDoc f2.config k = Option.none)
    (h3 : lookupDoc u.data k2 = Option.none) :
    Forum.getattr f2 k = Except.ok PyVal.vnone
  ∧ User.getattr u k2 = Except.ok PyVal.vnone := by
  constructor
  · simp [Forum.getattr, h1, h2, process_data_vnone]
  · simp [User.getattr, h3, process_data_vnone]

/-- C6: Forum construction fails with the NotThisSoftware error exactly
when the X-Powered-By header of the HEAD response is not exactly NodeBB
(a missing header included), and on that failure the HEAD probe is the
only request performed: no document fetch is issued and no Forum value
is produced. -/
theorem forum_init_header (net : Net) (url : String) :
    (getHeaderCI (net.headers url) "X-Powered-By" ≠ some "NodeBB" ↔
      (Forum.init net url).1 = Except.error PyBBError.notThisSoftware)
  ∧ (getHeaderCI (net.headers url) "X-Powered-By" ≠ some "NodeBB" →
      (Forum.init net url).2 = [Request.headReq url]) := by
  by_cases hh : getHeaderCI (net.headers url) "X-Powered-By" = some "NodeBB"
  · have hne : (Forum.init net url).1 ≠ Except.error PyBBError.notThisSoftware := by
      simp only [Forum.init]
      cases hlk : lookupDoc (net.jsonBody (urljoin (urljoin url "api/") "config"))
          "siteTitle" with
      | some t => simp [hlk, hh]
      | none => simp [hlk, hh]
    exact ⟨⟨fun hcon => absurd hh hcon, fun he => absurd he hne⟩,
      fun hcon => absurd hh hcon⟩
  · refine ⟨⟨fun _ => ?_, fun _ => hh⟩, fun _ => ?_⟩
    · simp [Forum.init, if_pos hh]
    · simp [Forum.init, if_pos hh]

/-- C7 (amended): the picture attribute is resolved through the same
coercing attribute resolution as every other key; whenever its value is
a string on which the coercion is the identity (every real picture
path), the image URL is forum.endpoint URL-joined with that string, and
with no image-decoding capability the operation returns that URL string
itself rather than a decoded image. -/
theorem user_image_url (net : Net) (u : User) (s : String)
    (hp : lookupDoc u.data "picture" = some (PyVal.vstr s))
    (hid : process_data (PyVal.vstr s) = Except.ok (PyVal.vstr s)) :
    User.image net false u
      = Except.ok (ImageResult.url (urljoin u.forum.endpoint s)) := by
  have hga : User.getattr u "picture" = Except.ok (PyVal.vstr s) := by
    simp [User.getattr, hp, hid]
  by_cases hemp : s.data.isEmpty = true
  · have hs : s = "" := by
      cases s with
      | mk l =>
        cases l with
        | nil => rfl
        | cons a as => simp [List.isEmpty] at hemp
    subst hs
    simp [User.image, hga, pyTruthy, urljoin_empty_rel]
  · simp [User.image, hga, pyTruthy, hemp]

/-- C7 counterexample (to the frozen claim): a user whose picture value
is the 13-digit string 1234567890123 has it coerced to a datetime by
the attribute resolution, so the image operation raises TypeError
inside urljoin instead of joining the raw string into a URL. -/
theorem user_image_coerced_counterexample :
    User.image netFix false userPicTs = Except.error PyBBError.typeError
  ∧ User.image netFix false userPicTs ≠
      Except.ok (ImageResult.url (urljoin userPicTs.forum.endpoint "1234567890123")) := by
  constructor
  · rfl
  · intro h
    rw [show User.image netFix false userPicTs = Except.error PyBBError.typeError
      from rfl] at h
    exact Except.noConfusion h

/-- Witness for C1 at concrete inputs: a 13-digit string converts via
the millisecond branch, and a plain word is returned unchanged. -/
theorem process_data_strategy_order_witness :
    process_data (PyVal.vstr "1234567890123")
        = Except.ok (PyVal.vdatetime (fromtimestampMs (1234567890123 : Int).toNat))
  ∧ process_data (PyVal.vstr "hello") = Except.ok (PyVal.vstr "hello") :=
  ⟨(process_data_strategy_order (PyVal.vstr "1234567890123")).1 1234567890123
      (by decide) (by decide),
   (process_data_strategy_order (PyVal.vstr "hello")).2.2.2.1 (by decide)
     (fun s h => by cases h; decide)⟩

/-- Witness for the amended C2: the scenario value 1609459200000 coerces
to the timestamp 2021-01-01 00:00:00. -/
theorem coercion_digit13_witness :
    process_data (PyVal.vstr "1609459200000")
      = Except.ok (PyVal.vdatetime ⟨2021, 1, 1, 0, 0, 0, 0⟩) := by
  rw [coercion_digit13.1 "1609459200000" (by decide) (by decide)]
  rfl

/-- Witness for the amended C3: the exact six-digit pattern converts
with microsecond 123456, and the same fields without the trailing Z are
returned unchanged. -/
theorem iso_pattern_coercion_witness :
    process_data (PyVal.vstr (isoRender 2021 1 1 0 0 0 123456 6))
        = Except.ok (PyVal.vdatetime ⟨2021, 1, 1, 0, 0, 0, 123456⟩)
  ∧ process_data (PyVal.vstr (isoRenderNoZ 2021 1 1 0 0 0 123456 6))
        = Except.ok (PyVal.vstr (isoRenderNoZ 2021 1 1 0 0 0 123456 6)) := by
  constructor
  · have h := iso_pattern_coercion.1 2021 1 1 0 0 0 123456 6 (by norm_num)
      (by norm_num) (by norm_num) (by norm_num) (by norm_num) (by decide)
      (by norm_num) (by norm_num) (by norm_num) (by norm_num) (by norm_num)
      (by norm_num)
    simpa using h
  · exact iso_pattern_coercion.2.2.1 2021 1 1 0 0 0 123456 6 (by norm_num)
      (by norm_num) (by norm_num) (by norm_num) (by norm_num) (by norm_num)
      (by norm_num) (by norm_num) (by norm_num) (by norm_num)

/-- Witness for C4: on the fixture forum the shared key resolves to the
root document's value. -/
theorem forum_getattr_primary_witness :
    Forum.getattr forumBoth "k" = process_data (PyVal.vstr "fromData") :=
  forum_getattr_primary forumBoth "k" (PyVal.vstr "fromData") rfl rfl

/-- Witness for C5: an absent key yields None on the fixture forum and
user. -/
theorem getattr_missing_witness :
    Forum.getattr forumBoth "absent" = Except.ok PyVal.vnone
  ∧ User.getattr userPlain "absent" = Except.ok PyVal.vnone :=
  getattr_missing forumBoth userPlain "absent" "absent" rfl rfl rfl

/-- Witness for C6: a server sending no X-Powered-By header makes
construction fail with NotThisSoftware after the HEAD probe alone. -/
theorem forum_init_header_witness :
    (Forum.init netNoHdr "https://x/").1 = Except.error PyBBError.notThisSoftware
  ∧ (Forum.init netNoHdr "https://x/").2 = [Request.headReq "https://x/"] :=
  ⟨(forum_init_header netNoHdr "https://x/").1.mp (by decide),
   (forum_init_header netNoHdr "https://x/").2 (by decide)⟩

/-- Witness for the amended C7: with no image library the fixture user's
picture resolves to the joined URL string. -/
theorem user_image_url_witness :
    User.image netFix false userPlain
      = Except.ok (ImageResult.url (urljoin "https://f/api/" "/assets/a.png")) :=
  user_image_url netFix userPlain "/assets/a.png" rfl (by rfl)

/-- Witness for C9: idempotence at the non-convertible string hello. -/
theorem coercion_idempotent_witness :
    (process_data (PyVal.vstr "hello")).bind process_data
      = process_data (PyVal.vstr "hello") :=
  coercion_idempotent (PyVal.vstr "hello") (by decide) (fun s h => by cases h; decide)

/-- Witness for C10: the native integer 1609459200000 converts like the
equal 13-digit string. -/
theorem coercion_int13_witness :
    process_data (PyVal.vint 1609459200000)
        = Except.ok (PyVal.vdatetime (fromtimestampMs (1609459200000 : Int).toNat))
  ∧ process_data (PyVal.vint 1609459200000)
        = process_data (PyVal.vstr (pyStr (PyVal.vint 1609459200000))) :=
  coercion_int13 1609459200000 (by decide) (by decide)
